import Mathlib

/-!
# Verification of the `authpkg` credential and session lifecycle

A shallow embedding of the Go package `auth` (session-based authentication
over a transactional store).  Strings are modelled as `List Char`, the
SQLite store as in-memory lists of rows, Unix timestamps as `Int`, and
bcrypt as an abstract hash that records the password and cost (its
verification path succeeds exactly on the hashed password).  Store
statements that the code lets fail are modelled with explicit failure
injection so that transaction rollback is observable.
-/

namespace AuthPkg

/-- Strings are lists of characters (Go strings, read as rune sequences). -/
abbrev Str := List Char

/-! ## `util.go`: normalization, email sanity check, password policy -/

/-- ASCII whitespace recognized by Go's `strings.TrimSpace`
(`' '`, `'\t'`, `'\n'`, `'\v'`, `'\f'`, `'\r'`; the non-ASCII Unicode
space classes are out of scope for this development). -/
def isSpaceChar (c : Char) : Bool :=
  c == ' ' || c == '\t' || c == '\n' || c == '\x0b' || c == '\x0c' || c == '\r'

/-- Go `strings.ToLower`, restricted to per-character lowering. -/
def toLowerStr (s : Str) : Str := s.map Char.toLower

/-- Go `strings.TrimSpace`: drop leading and trailing whitespace. -/
def trimSpace (s : Str) : Str :=
  ((s.dropWhile isSpaceChar).reverse.dropWhile isSpaceChar).reverse

/-- `normalizeEmail` from `util.go`: `strings.TrimSpace(strings.ToLower(e))`. -/
def normalizeEmail (e : Str) : Str := trimSpace (toLowerStr e)

/-- Go `strings.Split(s, sep)` for a one-character separator. -/
def splitOnChar (sep : Char) : Str → List Str
  | [] => [[]]
  | c :: t =>
    if c == sep then [] :: splitOnChar sep t
    else
      match splitOnChar sep t with
      | [] => [[c]]
      | h :: r => (c :: h) :: r

/-- `validEmailBasic` from `util.go`: nonempty, exactly one `'@'`,
nonempty local and domain parts, and a `'.'` in the domain. -/
def validEmailBasic (e : Str) : Bool :=
  if e == [] || !(e.contains '@') then false
  else
    match splitOnChar '@' e with
    | [p0, p1] => !(p0 == []) && !(p1 == []) && p1.contains '.'
    | _ => false

/-- ASCII digit test, as the `r >= '0' && r <= '9'` case of
`hasLetterAndDigit` in `util.go`. -/
def isDigitChar (c : Char) : Bool := '0' ≤ c && c ≤ '9'

/-- ASCII letter test, as the corresponding case of `hasLetterAndDigit`. -/
def isLetterChar (c : Char) : Bool :=
  ('a' ≤ c && c ≤ 'z') || ('A' ≤ c && c ≤ 'Z')

/-- Loop body of `hasLetterAndDigit` from `util.go`: carry the two flags,
return `true` as soon as both are set, `false` when the string ends. -/
def hasLetterAndDigitAux : Str → Bool → Bool → Bool
  | [], _, _ => false
  | c :: t, hasL, hasD =>
    let hasD' := hasD || isDigitChar c
    let hasL' := hasL || isLetterChar c
    if hasL' && hasD' then true else hasLetterAndDigitAux t hasL' hasD'

/-- `hasLetterAndDigit` from `util.go`. -/
def hasLetterAndDigit (s : Str) : Bool := hasLetterAndDigitAux s false false

/-- Error taxonomy of the package, one constructor per distinct error the
embedded operations return (`storeError` carries a raw driver message). -/
inductive AuthErr where
  | invalidEmail
  | passwordTooShort (minLen : Int)
  | passwordNeedsLetterAndDigit
  | emailAlreadyRegistered
  | invalidCredentials
  | bcryptCostOutOfRange (cost : Int)
  | storeError (msg : Str)
  deriving DecidableEq, Repr

/-- `validatePasswordPolicy` from `util.go`: minimal length, then the
optional letter-and-digit requirement.  `none` means the policy accepts. -/
def validatePasswordPolicy (pw : Str) (minLen : Int) (requireStrong : Bool) :
    Option AuthErr :=
  if (pw.length : Int) < minLen then some (.passwordTooShort minLen)
  else if requireStrong && !hasLetterAndDigit pw then
    some .passwordNeedsLetterAndDigit
  else none

/-! ## bcrypt model

`bcrypt.GenerateFromPassword` is salted and non-invertible; all the code
under verification observes about a hash is (a) whether
`CompareHashAndPassword` accepts a candidate password and (b) the embedded
cost (`bcrypt.Cost`).  We therefore model a hash as the pair of the hashed
password and the cost, with verification succeeding exactly on that
password. -/

structure HashedPassword where
  pw : Str
  cost : Int
  deriving DecidableEq, Repr

/-- Model of `bcrypt.GenerateFromPassword` (generation never fails for
costs the package validates). -/
def bcryptGenerate (pw : Str) (cost : Int) : HashedPassword := ⟨pw, cost⟩

/-- Model of `bcrypt.CompareHashAndPassword == nil`. -/
def bcryptVerify (h : HashedPassword) (pw : Str) : Bool := h.pw == pw

/-- Model of `bcrypt.Cost`. -/
def bcryptCostOf (h : HashedPassword) : Int := h.cost

/-! ## `config.go`: configuration, defaulting, work-factor validation -/

/-- bcrypt's `DefaultCost` constant. -/
def bcryptDefaultCost : Int := 10

/-- `Config` from `api.go`, with durations in whole seconds and the cookie
attributes that never influence control flow (domain, Secure, SameSite)
omitted.  `cookieHTTPOnly` keeps its tri-state (`*bool`) shape. -/
structure Config where
  dbPath : Str := []
  sessionName : Str := []
  sessionTTL : Int := 0
  cookieHTTPOnly : Option Bool := none
  bcryptCost : Int := 0
  minPasswordLength : Int := 0
  requireStrongPasswords : Bool := false
  pruneInterval : Int := 0
  maxOpenConns : Int := 0
  maxIdleConns : Int := 0
  deriving DecidableEq, Repr

/-- `applyDefaults` from `config.go`.  Each zero-valued field is replaced
by its default; the Go original mutates the fields one after another, and
since every assignment only reads its own field this is equivalent to the
simultaneous update written here. -/
def applyDefaults (cfg : Config) : Config where
  dbPath := if cfg.dbPath == [] then "auth.db".toList else cfg.dbPath
  sessionName := if cfg.sessionName == [] then "session".toList else cfg.sessionName
  sessionTTL := if cfg.sessionTTL ≤ 0 then 24 * 60 * 60 else cfg.sessionTTL
  cookieHTTPOnly := if cfg.cookieHTTPOnly == none then some true else cfg.cookieHTTPOnly
  bcryptCost := if cfg.bcryptCost == 0 then bcryptDefaultCost else cfg.bcryptCost
  minPasswordLength := if cfg.minPasswordLength ≤ 0 then 8 else cfg.minPasswordLength
  requireStrongPasswords := cfg.requireStrongPasswords
  pruneInterval := if cfg.pruneInterval ≤ 0 then 60 * 60 else cfg.pruneInterval
  maxOpenConns := if cfg.maxOpenConns ≤ 0 then 1 else cfg.maxOpenConns
  maxIdleConns := if cfg.maxIdleConns ≤ 0 then 1 else cfg.maxIdleConns

/-- `validateBcryptCost` from `config.go`: the safe range is `[4, 31]`. -/
def validateBcryptCost (cost : Int) : Option AuthErr :=
  if cost < 4 || cost > 31 then some (.bcryptCostOutOfRange cost) else none

/-! ## Store model: the two tables created by `migrate.go` -/

/-- A row of the `users` table. -/
structure UserRow where
  id : Int
  email : Str
  passwordHash : HashedPassword
  createdAt : Int
  deriving DecidableEq, Repr

/-- A row of the `sessions` table. -/
structure SessionRow where
  token : Str
  userId : Int
  expiresAt : Int
  createdAt : Int
  deriving DecidableEq, Repr

/-- The SQLite database contents. -/
structure DB where
  users : List UserRow
  sessions : List SessionRow
  deriving DecidableEq, Repr

/-- The empty database produced by `migrate`. -/
def emptyDB : DB := ⟨[], []⟩

/-- `SELECT ... FROM users WHERE email = ?`. -/
def findUserByEmail (db : DB) (email : Str) : Option UserRow :=
  db.users.find? (fun u => u.email == email)

/-- `SELECT ... FROM users WHERE id = ?` (the join side of the session
lookup). -/
def findUserById (db : DB) (userId : Int) : Option UserRow :=
  db.users.find? (fun u => u.id == userId)

/-- `SELECT ... FROM sessions WHERE token = ?` (`findByToken`). -/
def findSessionByToken (db : DB) (token : Str) : Option SessionRow :=
  db.sessions.find? (fun s => s.token == token)

/-- `DELETE FROM sessions WHERE token = ?`. -/
def deleteSessionsByToken (db : DB) (token : Str) : DB :=
  { db with sessions := db.sessions.filter (fun s => !(s.token == token)) }

/-- `DELETE FROM sessions WHERE user_id = ?`. -/
def deleteSessionsByUser (db : DB) (userId : Int) : DB :=
  { db with sessions := db.sessions.filter (fun s => !(s.userId == userId)) }

/-- `UPDATE sessions SET expires_at = ? WHERE token = ?`. -/
def updateSessionExpiry (db : DB) (token : Str) (newExp : Int) : DB :=
  { db with sessions :=
      db.sessions.map fun s =>
        if s.token == token then { s with expiresAt := newExp } else s }

/-- `UPDATE users SET password_hash = ? WHERE id = ?`. -/
def updateUserHash (db : DB) (userId : Int) (h : HashedPassword) : DB :=
  { db with users :=
      db.users.map fun u =>
        if u.id == userId then { u with passwordHash := h } else u }

/-- `AUTOINCREMENT` id for a fresh `users` row. -/
def nextUserId (db : DB) : Int :=
  (db.users.map UserRow.id).foldr max 0 + 1

/-! ## Engine state and transport signals -/

/-- `API` from `api.go`: configuration (already defaulted by `newAPI`)
plus the store handle, here the store contents themselves. -/
structure APIState where
  cfg : Config
  db : DB
  deriving DecidableEq, Repr

/-- `User` from `api.go`: the projection returned to callers. -/
structure User where
  id : Int
  email : Str
  createdAt : Int
  deriving DecidableEq, Repr

/-- Effects the engine sends to the HTTP transport layer: `setCookie`
binds a token with an absolute expiry, `clearCookie` invalidates the
bound credential (`part_002`'s `setCookie`/`clearCookie`). -/
inductive Signal where
  | setCookie (token : Str) (expiresAt : Int)
  | clearCookie
  deriving DecidableEq, Repr

/-! ## `store.go`: construction -/

/-- `newAPI` from `store.go`: apply defaults, validate the bcrypt work
factor, open the store and run migrations.  Opening the SQLite file and
migrating a fresh database are modelled as non-failing, so the only
construction-time failure is the work-factor check. -/
def newAPI (cfg : Config) : Except AuthErr APIState :=
  match validateBcryptCost (applyDefaults cfg).bcryptCost with
  | some e => .error e
  | none => .ok ⟨applyDefaults cfg, emptyDB⟩

/-! ## `part_000`: register / login / logout / currentUser / changePassword

Each operation takes the pre-state and returns its result together with
the post-state of the store and the list of transport signals emitted,
in emission order. -/

/-- The SQLite driver's message for a violation of the `UNIQUE`
constraint on `users.email`. -/
def sqliteUniqueUsersEmailMsg : Str :=
  "UNIQUE constraint failed: users.email".toList

/-- Does `hay` start with `needle`? -/
def startsWith : Str → Str → Bool
  | _, [] => true
  | [], _ :: _ => false
  | a :: hay, b :: needle => a == b && startsWith hay needle

/-- Naive substring test used to model Go's `strings.Contains`. -/
def containsSub (hay needle : Str) : Bool :=
  if startsWith hay needle then true
  else
    match hay with
    | [] => false
    | _ :: t => containsSub t needle

/-- The driver-agnostic unique-violation sniffing in `registerInternal`
(`part_000` lines 44–48): lower-case the message and require the
substrings `"unique"`, `"users"` and `"email"`. -/
def isUniqueUsersEmailViolation (msg : Str) : Bool :=
  let m := toLowerStr msg
  containsSub m "unique".toList && containsSub m "users".toList &&
    containsSub m "email".toList

/-- `INSERT INTO users ...` under the `UNIQUE(email)` constraint: yields
the driver error message on a duplicate email, otherwise the new store
contents and the `LastInsertId`. -/
def insertUser (db : DB) (email : Str) (h : HashedPassword) (now : Int) :
    Except Str (DB × Int) :=
  if db.users.any (fun u => u.email == email) then
    .error sqliteUniqueUsersEmailMsg
  else
    let id := nextUserId db
    .ok ({ db with users := db.users ++ [⟨id, email, h, now⟩] }, id)

/-- `registerInternal` from `part_000`: normalize, validate email and
password policy, hash, then insert inside one transaction, classifying a
store unique-constraint violation as the duplicate-email error. -/
def registerInternal (a : APIState) (now : Int) (email pw : Str) :
    Except AuthErr (User × DB) :=
  let email := normalizeEmail email
  if !validEmailBasic email then .error .invalidEmail
  else
    match validatePasswordPolicy pw a.cfg.minPasswordLength a.cfg.requireStrongPasswords with
    | some e => .error e
    | none =>
      let h := bcryptGenerate pw a.cfg.bcryptCost
      match insertUser a.db email h now with
      | .error msg =>
        if isUniqueUsersEmailViolation msg then .error .emailAlreadyRegistered
        else .error (.storeError msg)
      | .ok (db', id) => .ok (⟨id, email, now⟩, db')

/-- `registerInternal` from the `src/auth/auth.go` variant: same flow but
with an inline minimum length of 8 and a pre-emptive uniqueness `SELECT`
inside the transaction instead of constraint-violation sniffing. -/
def registerInternalPreCheck (a : APIState) (now : Int) (email pw : Str) :
    Except AuthErr (User × DB) :=
  let email := normalizeEmail email
  if !validEmailBasic email then .error .invalidEmail
  else if (pw.length : Int) < 8 then .error (.passwordTooShort 8)
  else
    let h := bcryptGenerate pw a.cfg.bcryptCost
    if a.db.users.any (fun u => u.email == email) then
      .error .emailAlreadyRegistered
    else
      let id := nextUserId a.db
      .ok (⟨id, email, now⟩, { a.db with users := a.db.users ++ [⟨id, email, h, now⟩] })

/-- `failedLoginDelay` from `part_000`, in milliseconds. -/
def failedLoginDelayMs : Nat := 250

instance {ε α : Type} [DecidableEq ε] [DecidableEq α] : DecidableEq (Except ε α) := fun a b =>
  match a, b with
  | .error e₁, .error e₂ =>
    if h : e₁ = e₂ then .isTrue (by rw [h]) else .isFalse (by intro hc; cases hc; exact h rfl)
  | .ok v₁, .ok v₂ =>
    if h : v₁ = v₂ then .isTrue (by rw [h]) else .isFalse (by intro hc; cases hc; exact h rfl)
  | .error _, .ok _ => .isFalse (by intro hc; cases hc)
  | .ok _, .error _ => .isFalse (by intro hc; cases hc)

/-- Result of `loginInternal`: the outcome, the store post-state, the
transport signals, and the artificial delay slept before returning. -/
structure LoginResult where
  result : Except AuthErr User
  db : DB
  signals : List Signal
  delayMs : Nat
  deriving DecidableEq, Repr

/-- `loginInternal` from `part_000`: normalize, look up the credential,
verify; a lookup miss and a mismatch both sleep `failedLoginDelay` and
return invalid-credentials.  On success, opportunistically upgrade the
bcrypt hash when its embedded cost is below the configured one, then
create a session (`createSessionAndSetCookie` in `part_002`) expiring at
`now + SessionTTL` with the freshly generated token `newToken`. -/
def loginInternal (a : APIState) (now : Int) (newToken : Str) (email pw : Str) :
    LoginResult :=
  let email := normalizeEmail email
  match findUserByEmail a.db email with
  | none => ⟨.error .invalidCredentials, a.db, [], failedLoginDelayMs⟩
  | some u =>
    if !bcryptVerify u.passwordHash pw then
      ⟨.error .invalidCredentials, a.db, [], failedLoginDelayMs⟩
    else
      let db1 :=
        if bcryptCostOf u.passwordHash < a.cfg.bcryptCost ∧
            validateBcryptCost a.cfg.bcryptCost = none then
          updateUserHash a.db u.id (bcryptGenerate pw a.cfg.bcryptCost)
        else a.db
      let expiresAt := now + a.cfg.sessionTTL
      let db2 := { db1 with sessions := db1.sessions ++ [⟨newToken, u.id, expiresAt, now⟩] }
      ⟨.ok ⟨u.id, u.email, u.createdAt⟩, db2, [.setCookie newToken expiresAt], 0⟩

/-- Result of `logoutInternal` and `changePasswordInternal`: an optional
error, the store post-state, and the transport signals emitted. -/
structure OpResult where
  err : Option AuthErr
  db : DB
  signals : List Signal
  deriving DecidableEq, Repr

/-- `logoutInternal` from `part_000`.  `token = none` stands for a
missing cookie (or a cookie-read error); `deleteFails` injects a failure
of the `DELETE FROM sessions` statement.  Every path calls `clearCookie`
before returning. -/
def logoutInternal (db : DB) (token : Option Str) (deleteFails : Bool) :
    OpResult :=
  match token with
  | none => ⟨none, db, [.clearCookie]⟩
  | some tok =>
    if tok == [] then ⟨none, db, [.clearCookie]⟩
    else if deleteFails then
      ⟨some (.storeError "delete session".toList), db, [.clearCookie]⟩
    else ⟨none, deleteSessionsByToken db tok, [.clearCookie]⟩

/-- Result of `currentUserInternal`: the resolved user (if any), the
store post-state, and the transport signals emitted. -/
structure ResolveResult where
  user : Option User
  db : DB
  signals : List Signal
  deriving DecidableEq, Repr

/-- `currentUserInternal` from `part_000`: look up the session joined
with its user; a miss clears the cookie; at or past `expires_at` the row
is deleted and the cookie cleared; within the last 20% of the TTL
(`remaining * 5 <= ttl`, for positive configured TTL) the session is
extended to `now + ttl` and a refreshed cookie is set. -/
def currentUserInternal (a : APIState) (now : Int) (token : Option Str) :
    ResolveResult :=
  match token with
  | none => ⟨none, a.db, []⟩
  | some tok =>
    if tok == [] then ⟨none, a.db, []⟩
    else
      match findSessionByToken a.db tok with
      | none => ⟨none, a.db, [.clearCookie]⟩
      | some s =>
        match findUserById a.db s.userId with
        | none => ⟨none, a.db, [.clearCookie]⟩
        | some u =>
          if s.expiresAt ≤ now then
            ⟨none, deleteSessionsByToken a.db tok, [.clearCookie]⟩
          else
            let ttl := a.cfg.sessionTTL
            if ttl > 0 ∧ (s.expiresAt - now) * 5 ≤ ttl then
              let newExp := now + ttl
              ⟨some ⟨u.id, u.email, u.createdAt⟩,
               updateSessionExpiry a.db tok newExp,
               [.setCookie tok newExp]⟩
            else
              ⟨some ⟨u.id, u.email, u.createdAt⟩, a.db, []⟩

/-- `pruneExpiredSessionsInternal` from `part_000`:
`DELETE FROM sessions WHERE expires_at <= ?`. -/
def pruneExpiredSessionsInternal (db : DB) (now : Int) : DB :=
  { db with sessions := db.sessions.filter (fun s => !(s.expiresAt ≤ now)) }

/-- `revokeAllSessionsInternal` from `part_000`. -/
def revokeAllSessionsInternal (db : DB) (userId : Int) : DB :=
  deleteSessionsByUser db userId

/-- Failure injection for the two statements and the commit of the
`changePasswordInternal` transaction. -/
inductive TxOutcome where
  | ok
  | failUpdate
  | failDelete
  | failCommit
  deriving DecidableEq, Repr

/-- `changePasswordInternal` from `part_000`: validate the policy, hash,
then inside one transaction update the credential's hash and delete all
of its sessions.  A failure of either statement or of the commit rolls
the transaction back, leaving the store unchanged. -/
def changePasswordInternal (a : APIState) (userId : Int) (newPw : Str)
    (tx : TxOutcome) : OpResult :=
  match validatePasswordPolicy newPw a.cfg.minPasswordLength a.cfg.requireStrongPasswords with
  | some e => ⟨some e, a.db, []⟩
  | none =>
    let h := bcryptGenerate newPw a.cfg.bcryptCost
    match tx with
    | .failUpdate => ⟨some (.storeError "update user".toList), a.db, []⟩
    | .failDelete => ⟨some (.storeError "revoke sessions".toList), a.db, []⟩
    | .failCommit => ⟨some (.storeError "commit".toList), a.db, []⟩
    | .ok => ⟨none, deleteSessionsByUser (updateUserHash a.db userId h) userId, []⟩

/-! ## Demo fixtures used by the witness theorems -/

/-- A concrete configuration: TTL 100 s, defaults elsewhere. -/
def demoCfg : Config :=
  { sessionTTL := 100, bcryptCost := 10, minPasswordLength := 8 }

/-- A concrete stored credential. -/
def demoUserRow : UserRow := ⟨1, "a@b.com".toList, bcryptGenerate "password123".toList 10, 0⟩

/-- A concrete session token. -/
def demoTok : Str := "tok".toList

/-- A concrete session for `demoUserRow` expiring at `e`. -/
def demoSessionRow (e : Int) : SessionRow := ⟨demoTok, 1, e, 0⟩

/-- Engine state holding one credential and one session expiring at `e`. -/
def demoAPI (e : Int) : APIState := ⟨demoCfg, ⟨[demoUserRow], [demoSessionRow e]⟩⟩

/-- Engine state holding one credential and no sessions. -/
def demoAPINoSessions : APIState := ⟨demoCfg, ⟨[demoUserRow], []⟩⟩

/-! ## Helper lemmas -/

/-- Loop invariant of `hasLetterAndDigitAux`: as long as the flags are
not already both set (the loop returns beforehand in that case), the loop
computes the conjunction of the two existential scans. -/
theorem hasLetterAndDigitAux_eq :
    ∀ (s : Str) (l d : Bool), ¬(l = true ∧ d = true) →
      hasLetterAndDigitAux s l d =
        ((l || s.any isLetterChar) && (d || s.any isDigitChar)) := by
  intro s
  induction s with
  | nil =>
    intro l d h
    cases l <;> cases d <;> simp_all [hasLetterAndDigitAux]
  | cons c t ih =>
    intro l d h
    by_cases hl : (l || isLetterChar c) && (d || isDigitChar c) = true
    · simp only [hasLetterAndDigitAux, hl, if_true, List.any_cons]
      cases l <;> cases d <;> simp_all
    · have h' : ¬((l || isLetterChar c) = true ∧ (d || isDigitChar c) = true) := by
        intro hc; exact hl (by simp [hc.1, hc.2])
      simp only [hasLetterAndDigitAux, hl, if_false, List.any_cons]
      rw [ih _ _ h']
      cases l <;> cases d <;> cases hL : isLetterChar c <;> cases hD : isDigitChar c <;>
        simp_all

/-- `hasLetterAndDigit` decides exactly "some ASCII letter and some ASCII
digit occur in the string". -/
theorem hasLetterAndDigit_eq (s : Str) :
    hasLetterAndDigit s = (s.any isLetterChar && s.any isDigitChar) := by
  have := hasLetterAndDigitAux_eq s false false (by simp)
  simpa [hasLetterAndDigit] using this

/-- A `find?` over a list from which every `p`-match was filtered out
misses. -/
theorem find?_filter_not {α : Type} (p : α → Bool) :
    ∀ l : List α, (l.filter fun x => !(p x)).find? p = none := by
  intro l
  induction l with
  | nil => rfl
  | cons a t ih =>
    cases ha : p a <;> simp [List.filter_cons, ha, List.find?, ih]

/-- Filtering for `p` after keeping only non-`p` elements leaves nothing. -/
theorem filter_filter_not {α : Type} (p : α → Bool) :
    ∀ l : List α, (l.filter fun x => !(p x)).filter p = [] := by
  intro l
  induction l with
  | nil => rfl
  | cons a t ih =>
    cases ha : p a <;> simp [List.filter_cons, ha, ih]

/-- `find?` skips an appended prefix in which it misses. -/
theorem find?_append_none {α : Type} (p : α → Bool) :
    ∀ l₁ l₂ : List α, l₁.find? p = none → (l₁ ++ l₂).find? p = l₂.find? p := by
  intro l₁
  induction l₁ with
  | nil => intro l₂ _; rfl
  | cons a t ih =>
    intro l₂ h
    cases ha : p a
    · simp only [List.cons_append, List.find?, ha]
      exact ih l₂ (by simpa [List.find?, ha] using h)
    · simp [List.find?, ha] at h

/-- A list in which `any` fails has no `find?` hit. -/
theorem find?_eq_none_of_any_false {α : Type} (p : α → Bool) :
    ∀ l : List α, l.any p = false → l.find? p = none := by
  intro l
  induction l with
  | nil => intro _; rfl
  | cons a t ih =>
    intro h
    cases ha : p a
    · simp only [List.find?, ha]
      exact ih (by simpa [ha] using h)
    · simp [ha] at h

/-- Deleting a token's sessions makes a subsequent lookup of that token
miss. -/
theorem findSession_after_delete (db : DB) (tok : Str) :
    findSessionByToken (deleteSessionsByToken db tok) tok = none := by
  simp only [findSessionByToken, deleteSessionsByToken]
  exact find?_filter_not (fun s : SessionRow => s.token == tok) db.sessions

/-- List form of `findSession_after_update`. -/
theorem find?_map_setExpiry (tok : Str) (e : Int) :
    ∀ (l : List SessionRow) (s : SessionRow),
      l.find? (fun x => x.token == tok) = some s →
      (l.map fun x => if x.token == tok then { x with expiresAt := e } else x).find?
          (fun x => x.token == tok) = some { s with expiresAt := e } := by
  intro l
  induction l with
  | nil => intro s h; cases h
  | cons a t ih =>
    intro s h
    cases ha : (a.token == tok)
    · simp only [List.find?, ha] at h
      simpa [List.find?, ha] using ih s h
    · simp only [List.find?, ha, Option.some.injEq] at h
      subst h
      simp [List.find?, ha]

/-- After `updateSessionExpiry`, the session found by the token is the
old row with the new expiry. -/
theorem findSession_after_update (db : DB) (tok : Str) (e : Int) (s : SessionRow)
    (h : findSessionByToken db tok = some s) :
    findSessionByToken (updateSessionExpiry db tok e) tok =
      some { s with expiresAt := e } := by
  simp only [findSessionByToken, updateSessionExpiry] at h ⊢
  exact find?_map_setExpiry tok e db.sessions s h

/-- No session for the credential survives `deleteSessionsByUser`. -/
theorem no_sessions_after_deleteByUser (db : DB) (userId : Int) :
    (deleteSessionsByUser db userId).sessions.filter
      (fun s => s.userId == userId) = [] := by
  simp only [deleteSessionsByUser]
  exact filter_filter_not (fun s : SessionRow => s.userId == userId) db.sessions

/-- `validateBcryptCost` accepts exactly the safe range `[4, 31]`. -/
theorem validateBcryptCost_eq_none (cost : Int) :
    validateBcryptCost cost = none ↔ (4 ≤ cost ∧ cost ≤ 31) := by
  unfold validateBcryptCost
  split_ifs with h
  · simp only [reduceCtorEq, false_iff]
    intro hc
    simp only [decide_eq_true_eq, Bool.or_eq_true] at h
    omega
  · simp only [true_iff]
    simp only [decide_eq_true_eq, Bool.or_eq_true, not_or] at h
    omega

/-! ## Claims -/

/-- **C7**: constructing the engine (`New` → `newAPI`) fails if and only
if the hashing work factor, after zero-value defaulting, lies outside the
safe range `[4, 31]`; the rejection happens at construction time. -/
theorem c7_construction_validates_work_factor (cfg : Config) :
    (∃ e, newAPI cfg = .error e) ↔
      ¬(4 ≤ (applyDefaults cfg).bcryptCost ∧ (applyDefaults cfg).bcryptCost ≤ 31) := by
  constructor
  · rintro ⟨e, he⟩ hrange
    have hnone := (validateBcryptCost_eq_none (applyDefaults cfg).bcryptCost).mpr hrange
    simp only [newAPI, hnone] at he
    cases he
  · intro hrange
    rcases hv : validateBcryptCost (applyDefaults cfg).bcryptCost with _ | e
    · exact absurd ((validateBcryptCost_eq_none _).mp hv) hrange
    · exact ⟨e, by simp only [newAPI, hv]⟩

/-- **C8**: password-policy validation succeeds if and only if the secret
is at least the configured minimum length and, when the mixed-class
requirement is set, contains at least one ASCII letter and one ASCII
digit. -/
theorem c8_password_policy_iff (pw : Str) (minLen : Int) (requireStrong : Bool) :
    validatePasswordPolicy pw minLen requireStrong = none ↔
      (minLen ≤ (pw.length : Int) ∧
        (requireStrong = true →
          (pw.any isLetterChar = true ∧ pw.any isDigitChar = true))) := by
  unfold validatePasswordPolicy
  split_ifs with h1 h2
  · simp only [reduceCtorEq, false_iff]
    intro hc
    omega
  · simp only [reduceCtorEq, false_iff]
    intro hc
    simp only [Bool.and_eq_true, Bool.not_eq_true'] at h2
    have := hc.2 h2.1
    rw [hasLetterAndDigit_eq] at h2
    simp [this.1, this.2] at h2
  · simp only [true_iff]
    refine ⟨by omega, fun hs => ?_⟩
    simp only [hs, Bool.true_and, Bool.not_eq_true'] at h2
    have : hasLetterAndDigit pw = true := by
      cases hh : hasLetterAndDigit pw
      · exact absurd hh h2
      · rfl
    rw [hasLetterAndDigit_eq] at this
    simp only [Bool.and_eq_true] at this
    exact this

/-- **C6**: logout never errors when the store delete succeeds — a missing
token and a token with no matching session included — it is idempotent
(calling it again with the same, by then invalid, token again returns no
error), and every call emits the transport-credential clearing signal. -/
theorem c6_logout_idempotent (db : DB) (token : Option Str) :
    (logoutInternal db token false).err = none ∧
    (logoutInternal db token false).signals = [Signal.clearCookie] ∧
    (logoutInternal (logoutInternal db token false).db token false).err = none ∧
    (logoutInternal (logoutInternal db token false).db token false).signals =
      [Signal.clearCookie] := by
  rcases token with _ | tok
  · simp [logoutInternal]
  · by_cases h : (tok == ([] : Str)) = true <;> simp [logoutInternal, h]

/-- **C10**: when the session-deletion statement fails during logout, the
clearing signal is still emitted and the error is returned to the caller;
the clear signal appears on the failing path as on every other. -/
theorem c10_clear_cookie_on_failed_delete (db : DB) (tok : Str) (htok : tok ≠ []) :
    (logoutInternal db (some tok) true).err =
      some (.storeError "delete session".toList) ∧
    (logoutInternal db (some tok) true).signals = [Signal.clearCookie] := by
  have hb : (tok == ([] : Str)) = false := beq_eq_false_iff_ne.mpr htok
  simp [logoutInternal, hb]

/-- Witness for C10: the failing delete on the demo store. -/
theorem c10_witness :
    demoTok ≠ [] ∧
    (logoutInternal (demoAPI 100).db (some demoTok) true).err =
      some (.storeError "delete session".toList) ∧
    (logoutInternal (demoAPI 100).db (some demoTok) true).signals =
      [Signal.clearCookie] :=
  ⟨by decide, c10_clear_cookie_on_failed_delete (demoAPI 100).db demoTok (by decide)⟩

/-- **C1**: resolving a presented session at `now ≥ expires_at` returns no
identity and deletes the row (a subsequent lookup by the token misses);
resolving at `now < expires_at`, with the remaining time above the
sliding-refresh threshold, returns the owning user's identity. -/
theorem c1_expired_session_deleted_valid_session_resolves
    (a : APIState) (now : Int) (tok : Str) (s : SessionRow) (u : UserRow)
    (htok : tok ≠ [])
    (hs : findSessionByToken a.db tok = some s)
    (hu : findUserById a.db s.userId = some u) :
    (s.expiresAt ≤ now →
      (currentUserInternal a now (some tok)).user = none ∧
      findSessionByToken (currentUserInternal a now (some tok)).db tok = none) ∧
    (now < s.expiresAt → a.cfg.sessionTTL < (s.expiresAt - now) * 5 →
      (currentUserInternal a now (some tok)).user =
        some ⟨u.id, u.email, u.createdAt⟩) := by
  have hb : (tok == ([] : Str)) = false := beq_eq_false_iff_ne.mpr htok
  constructor
  · intro hexp
    simp only [currentUserInternal, hb, Bool.false_eq_true, if_false, hs, hu, if_pos hexp]
    exact ⟨trivial, findSession_after_delete a.db tok⟩
  · intro hnow hth
    simp only [currentUserInternal, hb, Bool.false_eq_true, if_false, hs, hu,
      if_neg (by omega : ¬ s.expiresAt ≤ now),
      if_neg (by omega :
        ¬(a.cfg.sessionTTL > 0 ∧ (s.expiresAt - now) * 5 ≤ a.cfg.sessionTTL))]

/-- Witness for C1: the demo session expiring at 100, resolved at 100
(expired, deleted) and at 10 (valid, remaining 90 · 5 > 100). -/
theorem c1_witness :
    (demoTok ≠ [] ∧
      findSessionByToken (demoAPI 100).db demoTok = some (demoSessionRow 100)) ∧
    ((currentUserInternal (demoAPI 100) 100 (some demoTok)).user = none ∧
      findSessionByToken (currentUserInternal (demoAPI 100) 100 (some demoTok)).db
        demoTok = none) ∧
    (currentUserInternal (demoAPI 100) 10 (some demoTok)).user =
      some ⟨1, "a@b.com".toList, 0⟩ :=
  ⟨⟨by decide, by decide⟩,
   (c1_expired_session_deleted_valid_session_resolves (demoAPI 100) 100 demoTok
      (demoSessionRow 100) demoUserRow (by decide) (by decide) (by decide)).1
      (by decide),
   (c1_expired_session_deleted_valid_session_resolves (demoAPI 100) 10 demoTok
      (demoSessionRow 100) demoUserRow (by decide) (by decide) (by decide)).2
      (by decide) (by decide)⟩

/-- **C2**: for a valid session under a positive configured TTL, if
`(expires_at - now) * 5 ≤ ttl` the stored expiry becomes exactly
`now + ttl` and a re-issued cookie with that expiry is signaled; if
`(expires_at - now) * 5 > ttl` the store is left unchanged and no cookie
is set (the boundary sits exactly at the `5×` comparison). -/
theorem c2_sliding_refresh_boundary
    (a : APIState) (now : Int) (tok : Str) (s : SessionRow) (u : UserRow)
    (htok : tok ≠ [])
    (hs : findSessionByToken a.db tok = some s)
    (hu : findUserById a.db s.userId = some u)
    (httl : 0 < a.cfg.sessionTTL)
    (hvalid : now < s.expiresAt) :
    ((s.expiresAt - now) * 5 ≤ a.cfg.sessionTTL →
      findSessionByToken (currentUserInternal a now (some tok)).db tok =
        some { s with expiresAt := now + a.cfg.sessionTTL } ∧
      (currentUserInternal a now (some tok)).signals =
        [Signal.setCookie tok (now + a.cfg.sessionTTL)]) ∧
    (a.cfg.sessionTTL < (s.expiresAt - now) * 5 →
      (currentUserInternal a now (some tok)).db = a.db ∧
      (currentUserInternal a now (some tok)).signals = []) := by
  have hb : (tok == ([] : Str)) = false := beq_eq_false_iff_ne.mpr htok
  constructor
  · intro hle
    simp only [currentUserInternal, hb, Bool.false_eq_true, if_false, hs, hu,
      if_neg (by omega : ¬ s.expiresAt ≤ now),
      if_pos (⟨httl, hle⟩ :
        a.cfg.sessionTTL > 0 ∧ (s.expiresAt - now) * 5 ≤ a.cfg.sessionTTL)]
    exact ⟨findSession_after_update a.db tok (now + a.cfg.sessionTTL) s hs, trivial⟩
  · intro hgt
    simp only [currentUserInternal, hb, Bool.false_eq_true, if_false, hs, hu,
      if_neg (by omega : ¬ s.expiresAt ≤ now),
      if_neg (by omega :
        ¬(a.cfg.sessionTTL > 0 ∧ (s.expiresAt - now) * 5 ≤ a.cfg.sessionTTL))]
    exact ⟨trivial, trivial⟩

/-- Witness for C2: TTL 100, session expiring at 100.  Resolved at 81
(remaining 19, `19·5 ≤ 100`) the row is extended to 181 and a cookie for
181 is set; resolved at 79 (remaining 21, `21·5 > 100`) nothing changes. -/
theorem c2_witness :
    (demoTok ≠ [] ∧ 0 < (demoAPI 100).cfg.sessionTTL ∧ (81 : Int) < 100) ∧
    (findSessionByToken (currentUserInternal (demoAPI 100) 81 (some demoTok)).db
        demoTok = some (demoSessionRow 181) ∧
      (currentUserInternal (demoAPI 100) 81 (some demoTok)).signals =
        [Signal.setCookie demoTok 181]) ∧
    ((currentUserInternal (demoAPI 100) 79 (some demoTok)).db = (demoAPI 100).db ∧
      (currentUserInternal (demoAPI 100) 79 (some demoTok)).signals = []) :=
  ⟨⟨by decide, by decide, by decide⟩,
   (c2_sliding_refresh_boundary (demoAPI 100) 81 demoTok (demoSessionRow 100)
      demoUserRow (by decide) (by decide) (by decide) (by decide) (by decide)).1
      (by decide),
   (c2_sliding_refresh_boundary (demoAPI 100) 79 demoTok (demoSessionRow 100)
      demoUserRow (by decide) (by decide) (by decide) (by decide) (by decide)).2
      (by decide)⟩

/-- Inversion of a successful `registerInternal`: the input passed both
validations, the normalized email was free, and the returned user and
store are the inserted row. -/
theorem registerInternal_ok (a : APIState) (now : Int) (email pw : Str)
    (u : User) (db' : DB)
    (h : registerInternal a now email pw = .ok (u, db')) :
    validEmailBasic (normalizeEmail email) = true ∧
    validatePasswordPolicy pw a.cfg.minPasswordLength a.cfg.requireStrongPasswords = none ∧
    a.db.users.any (fun x => x.email == normalizeEmail email) = false ∧
    u = ⟨nextUserId a.db, normalizeEmail email, now⟩ ∧
    db' = { a.db with users := a.db.users ++
      [⟨nextUserId a.db, normalizeEmail email,
        bcryptGenerate pw a.cfg.bcryptCost, now⟩] } := by
  simp only [registerInternal, insertUser] at h
  cases hval : validEmailBasic (normalizeEmail email) with
  | false => rw [hval] at h; simp at h
  | true =>
    rw [hval] at h
    simp only [Bool.not_true, Bool.false_eq_true, if_false] at h
    cases hpol : validatePasswordPolicy pw a.cfg.minPasswordLength
        a.cfg.requireStrongPasswords with
    | some e => rw [hpol] at h; simp at h
    | none =>
      rw [hpol] at h
      cases hany : a.db.users.any (fun x => x.email == normalizeEmail email) with
      | true =>
        rw [hany] at h
        simp only [if_true] at h
        split at h <;> simp at h
      | false =>
        rw [hany] at h
        simp only [Bool.false_eq_true, if_false, Except.ok.injEq, Prod.mk.injEq] at h
        exact ⟨rfl, rfl, rfl, h.1.symm, h.2.symm⟩

/-- The concrete SQLite unique-violation message is classified by the
driver-agnostic sniffing. -/
theorem sqliteMsg_is_unique_violation :
    isUniqueUsersEmailViolation sqliteUniqueUsersEmailMsg = true := by decide

/-- **C3**: after a successful registration, registering any identity
with the same normalized key again (with an otherwise valid input) fails
with the duplicate-email error and never with a raw store error — both in
the variant that sniffs the store's unique-constraint violation and in
the variant with a pre-emptive uniqueness check. -/
theorem c3_duplicate_registration_already_exists
    (a : APIState) (now1 now2 : Int) (email1 email2 pw1 pw2 : Str)
    (u : User) (db1 : DB)
    (h1 : registerInternal a now1 email1 pw1 = .ok (u, db1))
    (hsame : normalizeEmail email2 = normalizeEmail email1)
    (hpol2 : validatePasswordPolicy pw2 a.cfg.minPasswordLength
      a.cfg.requireStrongPasswords = none)
    (hlen2 : 8 ≤ (pw2.length : Int)) :
    registerInternal { a with db := db1 } now2 email2 pw2 =
      .error .emailAlreadyRegistered ∧
    registerInternalPreCheck { a with db := db1 } now2 email2 pw2 =
      .error .emailAlreadyRegistered := by
  obtain ⟨hval, _, hany, _, hdb⟩ := registerInternal_ok a now1 email1 pw1 u db1 h1
  have hany1 : db1.users.any (fun x => x.email == normalizeEmail email1) = true := by
    rw [hdb]
    simp [List.any_append]
  constructor
  · simp only [registerInternal, insertUser, hsame, hval, Bool.not_true,
      Bool.false_eq_true, if_false, hpol2, hany1, if_true,
      sqliteMsg_is_unique_violation]
  · simp only [registerInternalPreCheck, hsame, hval, Bool.not_true,
      Bool.false_eq_true, if_false, hany1, if_true,
      if_neg (by omega : ¬ (pw2.length : Int) < 8)]

/-- State with no registered credential for the duplicate-registration
witness. -/
def demoFreshAPI : APIState := ⟨demoCfg, emptyDB⟩

/-- The user returned by registering `a@b.com` in `demoFreshAPI`. -/
def demoRegUser : User := ⟨1, "a@b.com".toList, 0⟩

/-- The store after registering `a@b.com` in `demoFreshAPI`. -/
def demoRegDB : DB :=
  ⟨[⟨1, "a@b.com".toList, bcryptGenerate "password123".toList 10, 0⟩], []⟩

/-- Witness for C3: registering `a@b.com` twice. -/
theorem c3_witness :
    (registerInternal demoFreshAPI 0 "a@b.com".toList "password123".toList =
        .ok (demoRegUser, demoRegDB)) ∧
    registerInternal ⟨demoCfg, demoRegDB⟩ 1 "a@b.com".toList "password123".toList =
      .error .emailAlreadyRegistered ∧
    registerInternalPreCheck ⟨demoCfg, demoRegDB⟩ 1 "a@b.com".toList
        "password123".toList = .error .emailAlreadyRegistered :=
  ⟨by decide,
   (c3_duplicate_registration_already_exists demoFreshAPI 0 1 "a@b.com".toList
      "a@b.com".toList "password123".toList "password123".toList demoRegUser
      demoRegDB (by decide) rfl (by decide) (by decide)).1,
   (c3_duplicate_registration_already_exists demoFreshAPI 0 1 "a@b.com".toList
      "a@b.com".toList "password123".toList "password123".toList demoRegUser
      demoRegDB (by decide) rfl (by decide) (by decide)).2⟩

/-- **C4**: a login whose identity lookup misses and a login whose secret
fails verification both return the invalid-credentials error and both
incur the identical fixed 250 ms delay — the two failure modes are
indistinguishable to the caller. -/
theorem c4_login_failures_indistinguishable
    (a : APIState) (now1 now2 : Int) (t1 t2 : Str)
    (email1 pw1 email2 pw2 : Str) (u : UserRow)
    (hmiss : findUserByEmail a.db (normalizeEmail email1) = none)
    (hhit : findUserByEmail a.db (normalizeEmail email2) = some u)
    (hwrong : bcryptVerify u.passwordHash pw2 = false) :
    (loginInternal a now1 t1 email1 pw1).result = .error .invalidCredentials ∧
    (loginInternal a now1 t1 email1 pw1).delayMs = failedLoginDelayMs ∧
    (loginInternal a now2 t2 email2 pw2).result = .error .invalidCredentials ∧
    (loginInternal a now2 t2 email2 pw2).delayMs = failedLoginDelayMs ∧
    ((loginInternal a now1 t1 email1 pw1).result,
      (loginInternal a now1 t1 email1 pw1).delayMs) =
      ((loginInternal a now2 t2 email2 pw2).result,
        (loginInternal a now2 t2 email2 pw2).delayMs) := by
  simp [loginInternal, hmiss, hhit, hwrong]

/-- Witness for C4: unknown identity vs. wrong secret on the demo store. -/
theorem c4_witness :
    (findUserByEmail demoAPINoSessions.db (normalizeEmail "who@x.org".toList) = none ∧
      findUserByEmail demoAPINoSessions.db (normalizeEmail "a@b.com".toList) =
        some demoUserRow ∧
      bcryptVerify demoUserRow.passwordHash "wrongpass".toList = false) ∧
    (loginInternal demoAPINoSessions 0 "t1".toList "who@x.org".toList
        "anything".toList).result = .error .invalidCredentials ∧
    (loginInternal demoAPINoSessions 0 "t1".toList "who@x.org".toList
        "anything".toList).delayMs = failedLoginDelayMs ∧
    (loginInternal demoAPINoSessions 0 "t2".toList "a@b.com".toList
        "wrongpass".toList).result = .error .invalidCredentials ∧
    (loginInternal demoAPINoSessions 0 "t2".toList "a@b.com".toList
        "wrongpass".toList).delayMs = failedLoginDelayMs :=
  ⟨⟨by decide, by decide, by decide⟩,
   (c4_login_failures_indistinguishable demoAPINoSessions 0 0 "t1".toList
      "t2".toList "who@x.org".toList "anything".toList "a@b.com".toList
      "wrongpass".toList demoUserRow (by decide) (by decide) (by decide)).1,
   (c4_login_failures_indistinguishable demoAPINoSessions 0 0 "t1".toList
      "t2".toList "who@x.org".toList "anything".toList "a@b.com".toList
      "wrongpass".toList demoUserRow (by decide) (by decide) (by decide)).2.1,
   (c4_login_failures_indistinguishable demoAPINoSessions 0 0 "t1".toList
      "t2".toList "who@x.org".toList "anything".toList "a@b.com".toList
      "wrongpass".toList demoUserRow (by decide) (by decide) (by decide)).2.2.1,
   (c4_login_failures_indistinguishable demoAPINoSessions 0 0 "t1".toList
      "t2".toList "who@x.org".toList "anything".toList "a@b.com".toList
      "wrongpass".toList demoUserRow (by decide) (by decide) (by decide)).2.2.2.1⟩

/-- **C5**: a successful `changePassword` with a policy-valid new secret
leaves zero sessions for the credential (whatever their number), the
stored hash afterwards verifies the new secret and no longer the old one;
and when any statement of the transaction (or its commit) fails, the
transaction rolls back and the store is exactly the pre-state — no
partial application. -/
theorem c5_change_password_revokes_sessions_atomically
    (a : APIState) (userId : Int) (newPw oldPw : Str) (tx : TxOutcome)
    (hpol : validatePasswordPolicy newPw a.cfg.minPasswordLength
      a.cfg.requireStrongPasswords = none)
    (hdiff : oldPw ≠ newPw) :
    ((changePasswordInternal a userId newPw .ok).err = none ∧
      (changePasswordInternal a userId newPw .ok).db.sessions.filter
        (fun s => s.userId == userId) = [] ∧
      (∀ u ∈ (changePasswordInternal a userId newPw .ok).db.users,
        u.id = userId →
          bcryptVerify u.passwordHash newPw = true ∧
          bcryptVerify u.passwordHash oldPw = false)) ∧
    (tx ≠ .ok →
      (changePasswordInternal a userId newPw tx).err.isSome = true ∧
      (changePasswordInternal a userId newPw tx).db = a.db) := by
  constructor
  · simp only [changePasswordInternal, hpol]
    refine ⟨trivial, no_sessions_after_deleteByUser _ userId, ?_⟩
    intro u hu hid
    simp only [deleteSessionsByUser, updateUserHash, List.mem_map] at hu
    obtain ⟨x, _, hux⟩ := hu
    by_cases hxid : (x.id == userId) = true
    · rw [if_pos hxid] at hux
      subst hux
      refine ⟨by simp [bcryptVerify, bcryptGenerate], ?_⟩
      exact beq_eq_false_iff_ne.mpr fun hh => hdiff hh.symm
    · rw [if_neg hxid] at hux
      subst hux
      exact absurd (beq_iff_eq.mpr hid) hxid
  · intro htx
    cases tx with
    | ok => exact absurd rfl htx
    | failUpdate => simp [changePasswordInternal, hpol]
    | failDelete => simp [changePasswordInternal, hpol]
    | failCommit => simp [changePasswordInternal, hpol]

/-- Witness for C5: changing `password123` to `newpass123` on the demo
store with one active session, plus a failing-update run rolling back. -/
theorem c5_witness :
    (validatePasswordPolicy "newpass123".toList (demoAPI 100).cfg.minPasswordLength
        (demoAPI 100).cfg.requireStrongPasswords = none ∧
      "password123".toList ≠ "newpass123".toList) ∧
    (changePasswordInternal (demoAPI 100) 1 "newpass123".toList .ok).err = none ∧
    (changePasswordInternal (demoAPI 100) 1 "newpass123".toList .ok).db.sessions.filter
      (fun s => s.userId == 1) = [] ∧
    ((changePasswordInternal (demoAPI 100) 1 "newpass123".toList .failUpdate).err.isSome
        = true ∧
      (changePasswordInternal (demoAPI 100) 1 "newpass123".toList .failUpdate).db =
        (demoAPI 100).db) :=
  ⟨⟨by decide, by decide⟩,
   (c5_change_password_revokes_sessions_atomically (demoAPI 100) 1
      "newpass123".toList "password123".toList .failUpdate (by decide)
      (by decide)).1.1,
   (c5_change_password_revokes_sessions_atomically (demoAPI 100) 1
      "newpass123".toList "password123".toList .failUpdate (by decide)
      (by decide)).1.2.1,
   (c5_change_password_revokes_sessions_atomically (demoAPI 100) 1
      "newpass123".toList "password123".toList .failUpdate (by decide)
      (by decide)).2 (by decide)⟩

/-- **C9**: whenever registration succeeds, the registered identity
carries the normalized (lower-cased, trimmed) key, and logging in on the
resulting store with the very same raw identity and secret succeeds and
returns that same identity — register and login normalize identically. -/
theorem c9_register_then_login_succeeds_normalized
    (a : APIState) (now1 now2 : Int) (newToken : Str) (email pw : Str)
    (u : User) (db1 : DB)
    (hreg : registerInternal a now1 email pw = .ok (u, db1)) :
    u.email = normalizeEmail email ∧
    (loginInternal { a with db := db1 } now2 newToken email pw).result = .ok u := by
  obtain ⟨_, _, hany, hu, hdb⟩ := registerInternal_ok a now1 email pw u db1 hreg
  have hfind : findUserByEmail db1 (normalizeEmail email) =
      some ⟨nextUserId a.db, normalizeEmail email,
        bcryptGenerate pw a.cfg.bcryptCost, now1⟩ := by
    rw [hdb]
    simp only [findUserByEmail]
    rw [find?_append_none _ _ _ (find?_eq_none_of_any_false _ _ hany)]
    simp [List.find?]
  constructor
  · rw [hu]
  · simp only [loginInternal, hfind, bcryptVerify, bcryptGenerate, beq_self_eq_true,
      Bool.not_true, Bool.false_eq_true, if_false]
    rw [hu]

/-- The store after registering `" User@Example.com "` in `demoFreshAPI`. -/
def demoRegDBNorm : DB :=
  ⟨[⟨1, "user@example.com".toList, bcryptGenerate "password123".toList 10, 0⟩], []⟩

/-- Witness for C9: register with a raw identity carrying spaces and
upper-case letters, then log in with the same raw pair. -/
theorem c9_witness :
    (registerInternal demoFreshAPI 0 " User@Example.com ".toList
        "password123".toList =
      .ok (⟨1, "user@example.com".toList, 0⟩, demoRegDBNorm)) ∧
    (⟨1, "user@example.com".toList, 0⟩ : User).email =
      normalizeEmail " User@Example.com ".toList ∧
    (loginInternal ⟨demoCfg, demoRegDBNorm⟩ 5 "t2".toList
        " User@Example.com ".toList "password123".toList).result =
      .ok ⟨1, "user@example.com".toList, 0⟩ :=
  ⟨by decide,
   (c9_register_then_login_succeeds_normalized demoFreshAPI 0 5 "t2".toList
      " User@Example.com ".toList "password123".toList
      ⟨1, "user@example.com".toList, 0⟩ demoRegDBNorm (by decide)).1,
   (c9_register_then_login_succeeds_normalized demoFreshAPI 0 5 "t2".toList
      " User@Example.com ".toList "password123".toList
      ⟨1, "user@example.com".toList, 0⟩ demoRegDBNorm (by decide)).2⟩

end AuthPkg
